import Mathlib

/-!
Shallow embedding of the token-budgeted content optimizer of this repository
(source files: src/api_utils.py and src/memory_server.py).

External effects are made explicit parameters:
* token counting (tiktoken cl100k_base) is an abstract function `Ctx.count`;
* the SHA-256 hex digest is an abstract function `Ctx.sha256hex`;
* the percentage formatting of the f-string
  (1 - optimized/original)*100 with one decimal is an abstract
  function `Ctx.fmtReduction` (its value is never branched on);
* `datetime.now()` is an explicit integer parameter `now` (one instant per call);
* the provider call
  client.chat.completions.create(...).choices[0].message.content
  is a function `provider : Nat → Option String` from the attempt index:
  `some s` models a response whose message content is the string `s`,
  `none` models any raised exception (network error, timeout, null content);
* `self.client` being configured (an API key was present) is a Bool `clientReady`;
* `time.sleep` calls are recorded in a trace instead of blocking.

The value `Except.error PyErr.zeroDivisionError` models a Python
ZeroDivisionError escaping the function.
-/

namespace MemoryOpt

/-- Abstract context for the effectful primitives the Python code uses. -/
structure Ctx where
  count : String → Nat
  sha256hex : String → String
  fmtReduction : Nat → Nat → String

/-- Python str.lower(), as used for the case-insensitive id comparison.
Stated on the character list so that it evaluates by structural recursion. -/
def pyLower (s : String) : String := { data := s.data.map Char.toLower }

/-- Python str.strip(): remove leading and trailing whitespace. Stated on
the character list so that it evaluates by structural recursion. -/
def pyStrip (s : String) : String :=
  { data := ((s.data.dropWhile Char.isWhitespace).reverse.dropWhile
      Char.isWhitespace).reverse }

/-- Mirrors dataclass OptimizedCacheEntry of src/api_utils.py. -/
structure OptimizedCacheEntry where
  optimized_text : String
  timestamp : Int
  original_tokens : Nat
  optimized_tokens : Nat
deriving DecidableEq

/-- Mirrors class OptimizedCache of src/api_utils.py: a dict from hash keys
to entries, plus the fixed ttl (seconds, set from ttl_hours at construction). -/
structure OptimizedCache where
  cache : List (String × OptimizedCacheEntry)
  ttl : Int
deriving DecidableEq

/-- Python dict lookup d.get(k). -/
def dictGet (d : List (String × OptimizedCacheEntry)) (k : String) :
    Option OptimizedCacheEntry :=
  match d with
  | [] => none
  | (k1, v) :: rest => if k1 = k then some v else dictGet rest k

/-- Python dict assignment d[k] = v (overwrite; order of other keys is
irrelevant to lookups). -/
def dictSet (d : List (String × OptimizedCacheEntry)) (k : String)
    (v : OptimizedCacheEntry) : List (String × OptimizedCacheEntry) :=
  (k, v) :: d.filter (fun p => p.1 ≠ k)

/-- Python dict deletion del d[k]. -/
def dictDel (d : List (String × OptimizedCacheEntry)) (k : String) :
    List (String × OptimizedCacheEntry) :=
  d.filter (fun p => p.1 ≠ k)

/-- Mirrors OptimizedCache._get_hash: sha256 of f"{content}:{max_tokens}". -/
def keyString (content : String) (max_tokens : Int) : String :=
  content ++ ":" ++ toString max_tokens

/-- The cache key: sha256(keyString).hexdigest(). -/
def OptimizedCache.getHash (ctx : Ctx) (content : String) (max_tokens : Int) :
    String :=
  ctx.sha256hex (keyString content max_tokens)

/-- Mirrors OptimizedCache.get: returns the cached text if the entry exists
and is not expired; deletes an expired entry (lazy expiry). Returns the
possibly-updated cache alongside. -/
def OptimizedCache.get (ctx : Ctx) (c : OptimizedCache) (now : Int)
    (content : String) (max_tokens : Int) : Option String × OptimizedCache :=
  let cache_key := OptimizedCache.getHash ctx content max_tokens
  match dictGet c.cache cache_key with
  | none => (none, c)
  | some entry =>
      if c.ttl < now - entry.timestamp then
        (none, { cache := dictDel c.cache cache_key, ttl := c.ttl })
      else
        (some entry.optimized_text, c)

/-- Mirrors OptimizedCache.set: unconditional overwrite, stamped with `now`. -/
def OptimizedCache.set (ctx : Ctx) (c : OptimizedCache) (now : Int)
    (content : String) (max_tokens : Int) (optimized_text : String)
    (original_tokens optimized_tokens : Nat) : OptimizedCache :=
  { cache := dictSet c.cache (OptimizedCache.getHash ctx content max_tokens)
      { optimized_text := optimized_text, timestamp := now,
        original_tokens := original_tokens, optimized_tokens := optimized_tokens },
    ttl := c.ttl }

/-- Metadata dict returned by DeepSeekClient.optimize_memory_item; keys that a
given return site omits are `none`. -/
structure OptMeta where
  success : Bool
  original_tokens : Nat
  optimized_tokens : Nat
  cached : Bool
  reduction : Option String
  message : Option String
  error : Option String
  fallback : Option Bool
  attempts : Option Nat
deriving DecidableEq

/-- Python exceptions that can escape the modelled functions. -/
inductive PyErr where
  | zeroDivisionError
  | keyError
deriving DecidableEq

/-- Observable side effects of one optimize_memory_item call: how many times
the provider was invoked, and the time.sleep durations in order. -/
structure Trace where
  providerCalls : Nat
  sleeps : List Nat
deriving DecidableEq

/-- The `for attempt in range(3)` retry loop of optimize_memory_item
(src/api_utils.py lines 241-274). `fuel` counts the remaining iterations and
`attempt` is the Python loop variable. A `provider` exception is a failed
attempt; a successful response is stripped, counted and cached, after which
the metadata construction raises ZeroDivisionError when `original_tokens = 0`
(the reduction f-string divides by it) — inside the try block, so it too is a
failed attempt, but one that has already written the cache. Failed attempts
other than the last sleep 2^attempt seconds. -/
def optimizeAttemptLoop (ctx : Ctx) (provider : Nat → Option String)
    (now : Int) (content : String) (max_tokens : Int) (use_cache : Bool)
    (original_tokens : Nat) :
    Nat → Nat → OptimizedCache → Trace →
      Option (String × OptMeta) × OptimizedCache × Trace
  | 0, _, cache, tr => (none, cache, tr)
  | fuel + 1, attempt, cache, tr =>
    let tr1 : Trace := { providerCalls := tr.providerCalls + 1, sleeps := tr.sleeps }
    match provider attempt with
    | some response =>
        let optimized := pyStrip response
        let optimized_tokens := ctx.count optimized
        let cache1 := if use_cache then
            OptimizedCache.set ctx cache now content max_tokens optimized
              original_tokens optimized_tokens
          else cache
        if original_tokens = 0 then
          let tr2 : Trace := if attempt < 2 then
              { providerCalls := tr1.providerCalls, sleeps := tr1.sleeps ++ [2 ^ attempt] }
            else tr1
          optimizeAttemptLoop ctx provider now content max_tokens use_cache
            original_tokens fuel (attempt + 1) cache1 tr2
        else
          (some (optimized,
            { success := true, original_tokens := original_tokens,
              optimized_tokens := optimized_tokens, cached := false,
              reduction := some (ctx.fmtReduction original_tokens optimized_tokens),
              message := none, error := none, fallback := none,
              attempts := some (attempt + 1) }), cache1, tr1)
    | none =>
        let tr2 : Trace := if attempt < 2 then
            { providerCalls := tr1.providerCalls, sleeps := tr1.sleeps ++ [2 ^ attempt] }
          else tr1
        optimizeAttemptLoop ctx provider now content max_tokens use_cache
          original_tokens fuel (attempt + 1) cache tr2

/-- optimize_memory_item from the budget check on (src/api_utils.py lines
200-285): the part executed when the cache lookup did not produce a usable
(truthy) hit. -/
def optimizeAfterCacheCheck (ctx : Ctx) (provider : Nat → Option String)
    (clientReady : Bool) (cache : OptimizedCache) (now : Int)
    (content : String) (max_tokens : Int) (use_cache : Bool) :
    Except PyErr (String × OptMeta) × OptimizedCache × Trace :=
  let original_tokens := ctx.count content
  if (original_tokens : Int) ≤ max_tokens then
    (Except.ok (content,
      { success := true, original_tokens := original_tokens,
        optimized_tokens := original_tokens, cached := false,
        reduction := some "0%",
        message := some "Content already within token budget",
        error := none, fallback := none, attempts := none }), cache,
      { providerCalls := 0, sleeps := [] })
  else if clientReady = false then
    (Except.ok (content,
      { success := false, original_tokens := original_tokens,
        optimized_tokens := original_tokens, cached := false,
        reduction := none, message := none,
        error := some "DeepSeek client not initialized",
        fallback := some true, attempts := none }), cache,
      { providerCalls := 0, sleeps := [] })
  else
    match optimizeAttemptLoop ctx provider now content max_tokens use_cache
        original_tokens 3 0 cache { providerCalls := 0, sleeps := [] } with
    | (some (t, md), cache2, tr) => (Except.ok (t, md), cache2, tr)
    | (none, cache2, tr) =>
        (Except.ok (content,
          { success := false, original_tokens := original_tokens,
            optimized_tokens := original_tokens, cached := false,
            reduction := none, message := none,
            error := some "Optimization failed after 3 attempts",
            fallback := some true, attempts := none }), cache2, tr)

/-- Mirrors DeepSeekClient.optimize_memory_item (src/api_utils.py lines
168-285). The cache lookup runs first when use_cache; a hit is used only when
the returned string is truthy (non-empty). On a truthy hit the metadata
construction divides by original_tokens, raising ZeroDivisionError when that
count is zero — this happens outside any try block. -/
def optimize_memory_item (ctx : Ctx) (provider : Nat → Option String)
    (clientReady : Bool) (cache : OptimizedCache) (now : Int)
    (content : String) (max_tokens : Int) (use_cache : Bool) :
    Except PyErr (String × OptMeta) × OptimizedCache × Trace :=
  let original_tokens := ctx.count content
  let step := if use_cache then OptimizedCache.get ctx cache now content max_tokens
    else (none, cache)
  match step.1 with
  | some cachedText =>
      if cachedText = "" then
        optimizeAfterCacheCheck ctx provider clientReady step.2 now content
          max_tokens use_cache
      else if original_tokens = 0 then
        (Except.error PyErr.zeroDivisionError, step.2,
          { providerCalls := 0, sleeps := [] })
      else
        (Except.ok (cachedText,
          { success := true, original_tokens := original_tokens,
            optimized_tokens := ctx.count cachedText, cached := true,
            reduction := some (ctx.fmtReduction original_tokens (ctx.count cachedText)),
            message := none, error := none, fallback := none,
            attempts := none }), step.2, { providerCalls := 0, sleeps := [] })
  | none =>
      optimizeAfterCacheCheck ctx provider clientReady step.2 now content
        max_tokens use_cache

/-- A memory record as handled by src/memory_server.py; only the fields the
modelled operations touch are kept (the dict-merge in get_optimized_memory
copies every other field unchanged, represented here by `title`). -/
structure Memory where
  id : String
  title : String
  content : String
deriving DecidableEq

/-- Result dict of the get_memory tool (src/memory_server.py lines 334-357). -/
structure GetMemoryResult where
  success : Bool
  memory : Option Memory
  error : Option String
  available_ids : List String
deriving DecidableEq

/-- Mirrors get_memory: first case-insensitive id match wins; on failure the
error string is "Memory '<id>' not found" plus up to five available ids. -/
def get_memory (store : List Memory) (memory_id : String) : GetMemoryResult :=
  match store.find? (fun m => pyLower m.id == pyLower memory_id) with
  | some mem =>
      { success := true, memory := some mem, error := none, available_ids := [] }
  | none =>
      { success := false, memory := none,
        error := some ("Memory \x27" ++ memory_id ++ "\x27 not found"),
        available_ids := (store.take 5).map Memory.id }

/-- Result dict of the get_optimized_memory tool. On the not-found
short-circuit the get_memory result dict is returned as-is, so its
error/available_ids fields carry over and memory/optimization are absent. -/
structure GetOptimizedResult where
  success : Bool
  error : Option String
  available_ids : List String
  memory : Option Memory
  optimization : Option OptMeta
deriving DecidableEq

/-- Observable effects of one get_optimized_memory call: how many times
deepseek_client.optimize_memory_item was invoked, plus its inner trace. -/
structure ServerTrace where
  optimizeCalls : Nat
  inner : Trace
deriving DecidableEq

/-- Mirrors the get_optimized_memory tool (src/memory_server.py lines
433-477): look the memory up, short-circuit on failure, otherwise optimize
its content and merge the optimized text into a copy of the record. The
`none` memory branch models the KeyError a success-shaped dict without a
"memory" key would raise; get_memory never produces it. -/
def get_optimized_memory (ctx : Ctx) (provider : Nat → Option String)
    (clientReady : Bool) (cache : OptimizedCache) (now : Int)
    (store : List Memory) (memory_id : String) (max_tokens : Int)
    (use_cache : Bool) :
    Except PyErr GetOptimizedResult × OptimizedCache × ServerTrace :=
  let result := get_memory store memory_id
  if result.success = false then
    (Except.ok
      { success := false, error := result.error,
        available_ids := result.available_ids, memory := none,
        optimization := none }, cache,
      { optimizeCalls := 0, inner := { providerCalls := 0, sleeps := [] } })
  else
    match result.memory with
    | none =>
        (Except.error PyErr.keyError, cache,
          { optimizeCalls := 0, inner := { providerCalls := 0, sleeps := [] } })
    | some mem =>
        let inner := optimize_memory_item ctx provider clientReady cache now
          mem.content max_tokens use_cache
        match inner.1 with
        | Except.error e =>
            (Except.error e, inner.2.1, { optimizeCalls := 1, inner := inner.2.2 })
        | Except.ok (t, md) =>
            (Except.ok
              { success := true, error := none, available_ids := [],
                memory := some { id := mem.id, title := mem.title, content := t },
                optimization := some md }, inner.2.1,
              { optimizeCalls := 1, inner := inner.2.2 })

/-- Big-endian decimal digit rendering of a natural number, mirroring what
Nat.toDigitsCore 10 produces with sufficient fuel. -/
def digitsBE (n : Nat) : List Char :=
  if h : n / 10 = 0 then [Nat.digitChar (n % 10)]
  else digitsBE (n / 10) ++ [Nat.digitChar (n % 10)]
termination_by n
decreasing_by
  have h10 : 10 ≤ n := by
    by_contra hc
    push_neg at hc
    exact h (Nat.div_eq_of_lt hc)
  exact Nat.div_lt_self (by omega) (by norm_num)

/-- First component of an optimize_memory_item return value, when it
returned normally. -/
def resultText (r : Except PyErr (String × OptMeta)) : Option String :=
  match r with
  | Except.ok (t, _) => some t
  | Except.error _ => none

/-- Metadata component of an optimize_memory_item return value, when it
returned normally. -/
def resultMeta (r : Except PyErr (String × OptMeta)) : Option OptMeta :=
  match r with
  | Except.ok (_, m) => some m
  | Except.error _ => none

/-- Concrete context for closed instantiations: the token counter is the
character count, the digest is the identity and the reduction formatter is
constant. -/
def wCtx : Ctx :=
  { count := String.length, sha256hex := id, fmtReduction := fun _ _ => "f" }

/-- A fresh cache with the default 1-hour (3600-second) TTL. -/
def emptyCache : OptimizedCache := { cache := [], ttl := 3600 }

/-- A cache holding one entry for content "c" under budget 5, created at
time 0. -/
def c5Cache : OptimizedCache :=
  { cache := [(OptimizedCache.getHash wCtx "c" 5,
      { optimized_text := "t", timestamp := 0, original_tokens := 9,
        optimized_tokens := 1 })], ttl := 3600 }

/-- A cache holding one fresh entry whose optimized_text is the empty
string, for content "ec" under budget 1. -/
def c10Cache : OptimizedCache :=
  { cache := [(OptimizedCache.getHash wCtx "ec" 1,
      { optimized_text := "", timestamp := 0, original_tokens := 9,
        optimized_tokens := 0 })], ttl := 3600 }

/-- A one-record memory store for closed instantiations. -/
def wStore : List Memory := [{ id := "mem-001", title := "T", content := "hello" }]

/-! Basic dictionary lemmas. -/

theorem dictGet_dictSet_self (d : List (String × OptimizedCacheEntry))
    (k : String) (v : OptimizedCacheEntry) : dictGet (dictSet d k v) k = some v := by
  simp [dictGet, dictSet]

theorem dictGet_dictDel_self (d : List (String × OptimizedCacheEntry))
    (k : String) : dictGet (dictDel d k) k = none := by
  induction d with
  | nil => rfl
  | cons p rest ih =>
      by_cases h : p.1 = k
      · simpa [dictDel, h] using ih
      · simpa [dictDel, dictGet, h] using ih

/-! Cache access lemmas. -/

theorem OptimizedCache.get_of_absent (ctx : Ctx) (c : OptimizedCache)
    (now : Int) (content : String) (max_tokens : Int)
    (h : dictGet c.cache (OptimizedCache.getHash ctx content max_tokens) = none) :
    OptimizedCache.get ctx c now content max_tokens = (none, c) := by
  simp [OptimizedCache.get, h]

theorem OptimizedCache.get_of_fresh (ctx : Ctx) (c : OptimizedCache)
    (now : Int) (content : String) (max_tokens : Int) (e : OptimizedCacheEntry)
    (h : dictGet c.cache (OptimizedCache.getHash ctx content max_tokens) = some e)
    (hfresh : now - e.timestamp ≤ c.ttl) :
    OptimizedCache.get ctx c now content max_tokens = (some e.optimized_text, c) := by
  simp [OptimizedCache.get, h, not_lt.mpr hfresh]

theorem OptimizedCache.get_of_expired (ctx : Ctx) (c : OptimizedCache)
    (now : Int) (content : String) (max_tokens : Int) (e : OptimizedCacheEntry)
    (h : dictGet c.cache (OptimizedCache.getHash ctx content max_tokens) = some e)
    (hexp : c.ttl < now - e.timestamp) :
    OptimizedCache.get ctx c now content max_tokens =
      (none,
        { cache := dictDel c.cache (OptimizedCache.getHash ctx content max_tokens),
          ttl := c.ttl }) := by
  simp [OptimizedCache.get, h, hexp]

/-! Retry-loop lemmas. -/

theorem loop_allFail (ctx : Ctx) (provider : Nat → Option String) (now : Int)
    (content : String) (max_tokens : Int) (use_cache : Bool) (ot : Nat)
    (cache : OptimizedCache)
    (h0 : provider 0 = none) (h1 : provider 1 = none) (h2 : provider 2 = none) :
    optimizeAttemptLoop ctx provider now content max_tokens use_cache ot 3 0 cache
      { providerCalls := 0, sleeps := [] } =
      (none, cache, { providerCalls := 3, sleeps := [1, 2] }) := by
  simp [optimizeAttemptLoop, h0, h1, h2]

theorem loop_firstSuccess (ctx : Ctx) (provider : Nat → Option String) (now : Int)
    (content : String) (max_tokens : Int) (ot : Nat) (cache : OptimizedCache)
    (s : String) (h0 : provider 0 = some s) (hot : ot ≠ 0) :
    optimizeAttemptLoop ctx provider now content max_tokens true ot 3 0 cache
      { providerCalls := 0, sleeps := [] } =
      (some ((pyStrip s),
        { success := true, original_tokens := ot,
          optimized_tokens := ctx.count (pyStrip s), cached := false,
          reduction := some (ctx.fmtReduction ot (ctx.count (pyStrip s))),
          message := none, error := none, fallback := none,
          attempts := some 1 }),
        OptimizedCache.set ctx cache now content max_tokens (pyStrip s) ot (ctx.count (pyStrip s)),
        { providerCalls := 1, sleeps := [] }) := by
  simp [optimizeAttemptLoop, h0, hot]

theorem loop_successAtK (ctx : Ctx) (provider : Nat → Option String) (now : Int)
    (content : String) (max_tokens : Int) (ot : Nat) (cache : OptimizedCache)
    (k : Nat) (s : String) (hk : k ≤ 2) (hfail : ∀ i < k, provider i = none)
    (hs : provider k = some s) (hot : ot ≠ 0) :
    (optimizeAttemptLoop ctx provider now content max_tokens true ot 3 0 cache
      { providerCalls := 0, sleeps := [] }).1 =
      some (pyStrip s,
        { success := true, original_tokens := ot,
          optimized_tokens := ctx.count (pyStrip s), cached := false,
          reduction := some (ctx.fmtReduction ot (ctx.count (pyStrip s))),
          message := none, error := none, fallback := none,
          attempts := some (k + 1) }) ∧
    (optimizeAttemptLoop ctx provider now content max_tokens true ot 3 0 cache
      { providerCalls := 0, sleeps := [] }).2.1 =
      OptimizedCache.set ctx cache now content max_tokens (pyStrip s) ot
        (ctx.count (pyStrip s)) := by
  interval_cases k
  · constructor <;> simp [optimizeAttemptLoop, hs, hot]
  · constructor <;>
      simp [optimizeAttemptLoop, hfail 0 (by norm_num), hs, hot]
  · constructor <;>
      simp [optimizeAttemptLoop, hfail 0 (by norm_num), hfail 1 (by norm_num),
        hs, hot]

theorem loop_cached_false (ctx : Ctx) (provider : Nat → Option String) (now : Int)
    (content : String) (max_tokens : Int) (use_cache : Bool) (ot : Nat) :
    ∀ (fuel att : Nat) (cache : OptimizedCache) (tr : Trace) (t : String)
      (md : OptMeta) (c2 : OptimizedCache) (tr2 : Trace),
      optimizeAttemptLoop ctx provider now content max_tokens use_cache ot
        fuel att cache tr = (some (t, md), c2, tr2) → md.cached = false := by
  intro fuel
  induction fuel with
  | zero => intro att cache tr t md c2 tr2 h; simp [optimizeAttemptLoop] at h
  | succ n ih =>
      intro att cache tr t md c2 tr2 h
      rw [optimizeAttemptLoop] at h
      rcases hp : provider att with _ | s
      · rw [hp] at h
        simp only at h
        exact ih _ _ _ _ _ _ _ h
      · rw [hp] at h
        simp only at h
        by_cases hot : ot = 0
        · rw [if_pos hot] at h
          exact ih _ _ _ _ _ _ _ h
        · rw [if_neg hot] at h
          simp only [Prod.mk.injEq, Option.some.injEq] at h
          obtain ⟨⟨_, hmd⟩, _, _⟩ := h
          exact hmd ▸ rfl

theorem loop_calls_mono (ctx : Ctx) (provider : Nat → Option String) (now : Int)
    (content : String) (max_tokens : Int) (use_cache : Bool) (ot : Nat) :
    ∀ (fuel att : Nat) (cache : OptimizedCache) (tr : Trace),
      tr.providerCalls ≤ (optimizeAttemptLoop ctx provider now content max_tokens
        use_cache ot fuel att cache tr).2.2.providerCalls := by
  intro fuel
  induction fuel with
  | zero => intro att cache tr; simp [optimizeAttemptLoop]
  | succ n ih =>
      intro att cache tr
      rw [optimizeAttemptLoop]
      rcases hp : provider att with _ | s
      · simp only
        by_cases hatt : att < 2
        · rw [if_pos hatt]
          have h := ih (att + 1) cache ⟨tr.providerCalls + 1, tr.sleeps ++ [2 ^ att]⟩
          exact Nat.le_trans (Nat.le_succ _) h
        · rw [if_neg hatt]
          have h := ih (att + 1) cache ⟨tr.providerCalls + 1, tr.sleeps⟩
          exact Nat.le_trans (Nat.le_succ _) h
      · simp only
        by_cases hot : ot = 0
        · rw [if_pos hot]
          by_cases hatt : att < 2
          · rw [if_pos hatt]
            have h := ih (att + 1)
              (if use_cache then
                OptimizedCache.set ctx cache now content max_tokens (pyStrip s) ot
                  (ctx.count (pyStrip s)) else cache)
              ⟨tr.providerCalls + 1, tr.sleeps ++ [2 ^ att]⟩
            exact Nat.le_trans (Nat.le_succ _) h
          · rw [if_neg hatt]
            have h := ih (att + 1)
              (if use_cache then
                OptimizedCache.set ctx cache now content max_tokens (pyStrip s) ot
                  (ctx.count (pyStrip s)) else cache)
              ⟨tr.providerCalls + 1, tr.sleeps⟩
            exact Nat.le_trans (Nat.le_succ _) h
        · rw [if_neg hot]
          exact Nat.le_succ _

theorem loop_calls_pos (ctx : Ctx) (provider : Nat → Option String) (now : Int)
    (content : String) (max_tokens : Int) (use_cache : Bool) (ot : Nat)
    (fuel att : Nat) (cache : OptimizedCache) (tr : Trace) :
    tr.providerCalls + 1 ≤ (optimizeAttemptLoop ctx provider now content max_tokens
      use_cache ot (fuel + 1) att cache tr).2.2.providerCalls := by
  rw [optimizeAttemptLoop]
  rcases hp : provider att with _ | s
  · simp only
    by_cases hatt : att < 2
    · rw [if_pos hatt]
      have h := loop_calls_mono ctx provider now content max_tokens use_cache ot
        fuel (att + 1) cache ⟨tr.providerCalls + 1, tr.sleeps ++ [2 ^ att]⟩
      exact h
    · rw [if_neg hatt]
      have h := loop_calls_mono ctx provider now content max_tokens use_cache ot
        fuel (att + 1) cache ⟨tr.providerCalls + 1, tr.sleeps⟩
      exact h
  · simp only
    by_cases hot : ot = 0
    · rw [if_pos hot]
      by_cases hatt : att < 2
      · rw [if_pos hatt]
        have h := loop_calls_mono ctx provider now content max_tokens use_cache ot
          fuel (att + 1)
          (if use_cache then
            OptimizedCache.set ctx cache now content max_tokens (pyStrip s) ot
              (ctx.count (pyStrip s)) else cache)
          ⟨tr.providerCalls + 1, tr.sleeps ++ [2 ^ att]⟩
        exact h
      · rw [if_neg hatt]
        have h := loop_calls_mono ctx provider now content max_tokens use_cache ot
          fuel (att + 1)
          (if use_cache then
            OptimizedCache.set ctx cache now content max_tokens (pyStrip s) ot
              (ctx.count (pyStrip s)) else cache)
          ⟨tr.providerCalls + 1, tr.sleeps⟩
        exact h
    · rw [if_neg hot]


theorem afterCache_budget (ctx : Ctx) (provider : Nat → Option String)
    (clientReady : Bool) (cache : OptimizedCache) (now : Int) (content : String)
    (max_tokens : Int) (use_cache : Bool)
    (h : (ctx.count content : Int) ≤ max_tokens) :
    optimizeAfterCacheCheck ctx provider clientReady cache now content max_tokens
      use_cache =
      (Except.ok (content,
        { success := true, original_tokens := ctx.count content,
          optimized_tokens := ctx.count content, cached := false,
          reduction := some "0%",
          message := some "Content already within token budget",
          error := none, fallback := none, attempts := none }), cache,
        { providerCalls := 0, sleeps := [] }) := by
  simp [optimizeAfterCacheCheck, h]

theorem afterCache_noClient (ctx : Ctx) (provider : Nat → Option String)
    (cache : OptimizedCache) (now : Int) (content : String)
    (max_tokens : Int) (use_cache : Bool)
    (h : max_tokens < (ctx.count content : Int)) :
    optimizeAfterCacheCheck ctx provider false cache now content max_tokens
      use_cache =
      (Except.ok (content,
        { success := false, original_tokens := ctx.count content,
          optimized_tokens := ctx.count content, cached := false,
          reduction := none, message := none,
          error := some "DeepSeek client not initialized",
          fallback := some true, attempts := none }), cache,
        { providerCalls := 0, sleeps := [] }) := by
  simp [optimizeAfterCacheCheck, not_le.mpr h]

theorem afterCache_allFail (ctx : Ctx) (provider : Nat → Option String)
    (cache : OptimizedCache) (now : Int) (content : String)
    (max_tokens : Int) (use_cache : Bool)
    (h : max_tokens < (ctx.count content : Int))
    (hall : ∀ i, provider i = none) :
    optimizeAfterCacheCheck ctx provider true cache now content max_tokens
      use_cache =
      (Except.ok (content,
        { success := false, original_tokens := ctx.count content,
          optimized_tokens := ctx.count content, cached := false,
          reduction := none, message := none,
          error := some "Optimization failed after 3 attempts",
          fallback := some true, attempts := none }), cache,
        { providerCalls := 3, sleeps := [1, 2] }) := by
  rw [optimizeAfterCacheCheck]
  rw [if_neg (not_le.mpr h)]
  rw [loop_allFail ctx provider now content max_tokens use_cache
    (ctx.count content) cache (hall 0) (hall 1) (hall 2)]
  rfl

theorem afterCache_firstSuccess (ctx : Ctx) (provider : Nat → Option String)
    (cache : OptimizedCache) (now : Int) (content : String)
    (max_tokens : Int) (s : String)
    (h : max_tokens < (ctx.count content : Int))
    (h0 : provider 0 = some s) (hot : ctx.count content ≠ 0) :
    optimizeAfterCacheCheck ctx provider true cache now content max_tokens true =
      (Except.ok ((pyStrip s),
        { success := true, original_tokens := ctx.count content,
          optimized_tokens := ctx.count (pyStrip s), cached := false,
          reduction := some (ctx.fmtReduction (ctx.count content) (ctx.count (pyStrip s))),
          message := none, error := none, fallback := none,
          attempts := some 1 }),
        OptimizedCache.set ctx cache now content max_tokens (pyStrip s)
          (ctx.count content) (ctx.count (pyStrip s)),
        { providerCalls := 1, sleeps := [] }) := by
  rw [optimizeAfterCacheCheck]
  rw [if_neg (not_le.mpr h)]
  rw [loop_firstSuccess ctx provider now content max_tokens
    (ctx.count content) cache s h0 hot]
  rfl

theorem afterCache_successAt (ctx : Ctx) (provider : Nat → Option String)
    (cache : OptimizedCache) (now : Int) (content : String) (max_tokens : Int)
    (k : Nat) (s : String)
    (hover : max_tokens < (ctx.count content : Int))
    (hk : k ≤ 2) (hfail : ∀ i < k, provider i = none) (hs : provider k = some s)
    (hot : ctx.count content ≠ 0) :
    (optimizeAfterCacheCheck ctx provider true cache now content max_tokens
      true).1 =
      Except.ok (pyStrip s,
        { success := true, original_tokens := ctx.count content,
          optimized_tokens := ctx.count (pyStrip s), cached := false,
          reduction := some (ctx.fmtReduction (ctx.count content)
            (ctx.count (pyStrip s))),
          message := none, error := none, fallback := none,
          attempts := some (k + 1) }) ∧
    (optimizeAfterCacheCheck ctx provider true cache now content max_tokens
      true).2.1 =
      OptimizedCache.set ctx cache now content max_tokens (pyStrip s)
        (ctx.count content) (ctx.count (pyStrip s)) := by
  rw [optimizeAfterCacheCheck, if_neg (not_le.mpr hover),
    if_neg (fun h => Bool.noConfusion h : ¬ (true = false))]
  have h1 := (loop_successAtK ctx provider now content max_tokens
    (ctx.count content) cache k s hk hfail hs hot).1
  have h2 := (loop_successAtK ctx provider now content max_tokens
    (ctx.count content) cache k s hk hfail hs hot).2
  rcases hl : optimizeAttemptLoop ctx provider now content max_tokens true
      (ctx.count content) 3 0 cache { providerCalls := 0, sleeps := [] }
    with ⟨r, c2, tr⟩
  rw [hl] at h1 h2
  simp only at h1 h2
  subst h1
  subst h2
  exact ⟨rfl, rfl⟩

theorem afterCache_isOk (ctx : Ctx) (provider : Nat → Option String)
    (clientReady : Bool) (cache : OptimizedCache) (now : Int) (content : String)
    (max_tokens : Int) (use_cache : Bool) :
    ∃ t md, (optimizeAfterCacheCheck ctx provider clientReady cache now content
      max_tokens use_cache).1 = Except.ok (t, md) := by
  rw [optimizeAfterCacheCheck]
  by_cases h1 : (ctx.count content : Int) ≤ max_tokens
  · rw [if_pos h1]
    exact ⟨_, _, rfl⟩
  · rw [if_neg h1]
    by_cases h2 : clientReady = false
    · rw [if_pos h2]
      exact ⟨_, _, rfl⟩
    · rw [if_neg h2]
      rcases hl : optimizeAttemptLoop ctx provider now content max_tokens
          use_cache (ctx.count content) 3 0 cache
          { providerCalls := 0, sleeps := [] } with ⟨r, c2, tr⟩
      rcases r with _ | ⟨t, md⟩
      · exact ⟨_, _, rfl⟩
      · exact ⟨_, _, rfl⟩

theorem afterCache_cached_false (ctx : Ctx) (provider : Nat → Option String)
    (clientReady : Bool) (cache : OptimizedCache) (now : Int) (content : String)
    (max_tokens : Int) (use_cache : Bool) (t : String) (md : OptMeta)
    (h : (optimizeAfterCacheCheck ctx provider clientReady cache now content
      max_tokens use_cache).1 = Except.ok (t, md)) : md.cached = false := by
  rw [optimizeAfterCacheCheck] at h
  by_cases h1 : (ctx.count content : Int) ≤ max_tokens
  · rw [if_pos h1] at h
    simp only [Except.ok.injEq, Prod.mk.injEq] at h
    exact h.2 ▸ rfl
  · rw [if_neg h1] at h
    by_cases h2 : clientReady = false
    · rw [if_pos h2] at h
      simp only [Except.ok.injEq, Prod.mk.injEq] at h
      exact h.2 ▸ rfl
    · rw [if_neg h2] at h
      rcases hl : optimizeAttemptLoop ctx provider now content max_tokens
          use_cache (ctx.count content) 3 0 cache
          { providerCalls := 0, sleeps := [] } with ⟨r, c2, tr⟩
      rcases r with _ | ⟨t2, md2⟩
      · rw [hl] at h
        simp only [Except.ok.injEq, Prod.mk.injEq] at h
        exact h.2 ▸ rfl
      · rw [hl] at h
        simp only [Except.ok.injEq, Prod.mk.injEq] at h
        have := loop_cached_false ctx provider now content max_tokens use_cache
          (ctx.count content) 3 0 cache { providerCalls := 0, sleeps := [] }
          t2 md2 c2 tr hl
        exact h.2 ▸ this


theorem optimize_noHit (ctx : Ctx) (provider : Nat → Option String)
    (clientReady : Bool) (cache : OptimizedCache) (now : Int) (content : String)
    (max_tokens : Int) (use_cache : Bool)
    (h : use_cache = true →
      (OptimizedCache.get ctx cache now content max_tokens).1 = none ∨
      (OptimizedCache.get ctx cache now content max_tokens).1 = some "") :
    optimize_memory_item ctx provider clientReady cache now content max_tokens
      use_cache =
    optimizeAfterCacheCheck ctx provider clientReady
      (if use_cache then (OptimizedCache.get ctx cache now content max_tokens).2
        else cache) now content max_tokens use_cache := by
  rcases huse : use_cache
  · simp [optimize_memory_item, huse]
  · rcases h huse with h2 | h2 <;> simp [optimize_memory_item, huse, h2]

theorem optimize_hit (ctx : Ctx) (provider : Nat → Option String)
    (clientReady : Bool) (cache : OptimizedCache) (now : Int) (content : String)
    (max_tokens : Int) (t : String)
    (hget : (OptimizedCache.get ctx cache now content max_tokens).1 = some t)
    (hne : t ≠ "") (hot : ctx.count content ≠ 0) :
    optimize_memory_item ctx provider clientReady cache now content max_tokens
      true =
      (Except.ok (t,
        { success := true, original_tokens := ctx.count content,
          optimized_tokens := ctx.count t, cached := true,
          reduction := some (ctx.fmtReduction (ctx.count content) (ctx.count t)),
          message := none, error := none, fallback := none,
          attempts := none }),
        (OptimizedCache.get ctx cache now content max_tokens).2,
        { providerCalls := 0, sleeps := [] }) := by
  simp [optimize_memory_item, hget, hne, hot]

theorem optimize_hit_zero (ctx : Ctx) (provider : Nat → Option String)
    (clientReady : Bool) (cache : OptimizedCache) (now : Int) (content : String)
    (max_tokens : Int) (t : String)
    (hget : (OptimizedCache.get ctx cache now content max_tokens).1 = some t)
    (hne : t ≠ "") (hot : ctx.count content = 0) :
    optimize_memory_item ctx provider clientReady cache now content max_tokens
      true =
      (Except.error PyErr.zeroDivisionError,
        (OptimizedCache.get ctx cache now content max_tokens).2,
        { providerCalls := 0, sleeps := [] }) := by
  simp [optimize_memory_item, hget, hne, hot]

theorem optimize_isOk (ctx : Ctx) (provider : Nat → Option String)
    (clientReady : Bool) (cache : OptimizedCache) (now : Int) (content : String)
    (max_tokens : Int) (use_cache : Bool) (hot : ctx.count content ≠ 0) :
    ∃ t md, (optimize_memory_item ctx provider clientReady cache now content
      max_tokens use_cache).1 = Except.ok (t, md) := by
  rcases huse : use_cache
  · rw [optimize_noHit ctx provider clientReady cache now content max_tokens false
      (fun h => Bool.noConfusion h)]
    exact afterCache_isOk ctx provider clientReady _ now content max_tokens false
  · rcases hs : (OptimizedCache.get ctx cache now content max_tokens).1 with _ | t
    · rw [optimize_noHit ctx provider clientReady cache now content max_tokens true
        (fun _ => Or.inl hs)]
      exact afterCache_isOk ctx provider clientReady _ now content max_tokens true
    · by_cases hne : t = ""
      · subst hne
        rw [optimize_noHit ctx provider clientReady cache now content max_tokens true
          (fun _ => Or.inr hs)]
        exact afterCache_isOk ctx provider clientReady _ now content max_tokens true
      · rw [optimize_hit ctx provider clientReady cache now content max_tokens t
          hs hne hot]
        exact ⟨_, _, rfl⟩


theorem pos_of_div10_ne_zero (n : Nat) (h : ¬ n / 10 = 0) : 0 < n := by
  rcases Nat.eq_zero_or_pos n with h0 | h0
  · subst h0; exact absurd rfl h
  · exact h0

theorem div10_lt (n : Nat) (h : ¬ n / 10 = 0) : n / 10 < n :=
  Nat.div_lt_self (pos_of_div10_ne_zero n h) (by norm_num)

theorem digitsBE_eq (n : Nat) : digitsBE n =
    if n / 10 = 0 then [Nat.digitChar (n % 10)]
    else digitsBE (n / 10) ++ [Nat.digitChar (n % 10)] := by
  rw [digitsBE]
  by_cases h : n / 10 = 0
  · rw [dif_pos h, if_pos h]
  · rw [dif_neg h, if_neg h]

theorem toDigitsCore_eq_digitsBE :
    ∀ (fuel n : Nat) (ds : List Char), n < fuel →
      Nat.toDigitsCore 10 fuel n ds = digitsBE n ++ ds := by
  intro fuel
  induction fuel with
  | zero => intro n ds h; omega
  | succ f ih =>
      intro n ds h
      rw [Nat.toDigitsCore]
      by_cases h0 : n / 10 = 0
      · simp only [h0, if_pos]
        rw [digitsBE_eq n, if_pos h0]
        rfl
      · simp only [h0, if_neg, if_false]
        have hlt : n / 10 < f := by
          have h1 := div10_lt n h0
          omega
        rw [ih (n / 10) _ hlt]
        conv_rhs => rw [digitsBE_eq n, if_neg h0]
        simp

theorem Nat_repr_data (n : Nat) : (Nat.repr n).data = digitsBE n := by
  show (Nat.toDigits 10 n).asString.data = digitsBE n
  rw [Nat.toDigits, toDigitsCore_eq_digitsBE (n + 1) n [] (Nat.lt_succ_self n)]
  simp [List.asString]

theorem digitChar_inj_lt :
    ∀ a < 10, ∀ b < 10, Nat.digitChar a = Nat.digitChar b → a = b := by decide

theorem digitsBE_ne_nil (n : Nat) : digitsBE n ≠ [] := by
  rw [digitsBE_eq]
  by_cases h0 : n / 10 = 0
  · rw [if_pos h0]; simp
  · rw [if_neg h0]; simp

theorem mem_digitsBE (n : Nat) :
    ∀ c ∈ digitsBE n, ∃ d, d < 10 ∧ c = Nat.digitChar d := by
  induction n using Nat.strong_induction_on with
  | _ n ih =>
      intro c hc
      rw [digitsBE_eq] at hc
      by_cases h0 : n / 10 = 0
      · rw [if_pos h0] at hc
        simp only [List.mem_singleton] at hc
        exact ⟨n % 10, Nat.mod_lt n (by norm_num), hc⟩
      · rw [if_neg h0] at hc
        rcases List.mem_append.mp hc with h | h
        · exact ih (n / 10) (div10_lt n h0) c h
        · simp only [List.mem_singleton] at h
          exact ⟨n % 10, Nat.mod_lt n (by norm_num), h⟩

theorem digitsBE_inj : ∀ m n : Nat, digitsBE m = digitsBE n → m = n := by
  intro m
  induction m using Nat.strong_induction_on with
  | _ m ih =>
      intro n h
      rw [digitsBE_eq m, digitsBE_eq n] at h
      by_cases hm : m / 10 = 0 <;> by_cases hn : n / 10 = 0
      · rw [if_pos hm, if_pos hn] at h
        simp only [List.cons.injEq] at h
        have hd := digitChar_inj_lt (m % 10) (Nat.mod_lt _ (by norm_num))
          (n % 10) (Nat.mod_lt _ (by norm_num)) h.1
        omega
      · rw [if_pos hm, if_neg hn] at h
        have hlen := congrArg List.length h
        simp only [List.length_singleton, List.length_append] at hlen
        have hnn := digitsBE_ne_nil (n / 10)
        have : 0 < (digitsBE (n / 10)).length := List.length_pos.mpr hnn
        omega
      · rw [if_neg hm, if_pos hn] at h
        have hlen := congrArg List.length h
        simp only [List.length_singleton, List.length_append] at hlen
        have hnn := digitsBE_ne_nil (m / 10)
        have : 0 < (digitsBE (m / 10)).length := List.length_pos.mpr hnn
        omega
      · rw [if_neg hm, if_neg hn] at h
        have hsp := List.append_inj' h (by simp)
        have h1 : m / 10 = n / 10 := ih (m / 10) (div10_lt m hm) (n / 10) hsp.1
        have h2 : m % 10 = n % 10 := by
          have hx := hsp.2
          simp only [List.cons.injEq] at hx
          exact digitChar_inj_lt (m % 10) (Nat.mod_lt _ (by norm_num))
            (n % 10) (Nat.mod_lt _ (by norm_num)) hx.1
        omega


theorem colon_not_mem_digitsBE (n : Nat) : ':' ∉ digitsBE n := by
  intro hmem
  obtain ⟨d, hd, hc⟩ := mem_digitsBE n ':' hmem
  revert hc
  revert hd
  revert d
  decide

theorem dash_not_mem_digitsBE (n : Nat) : '-' ∉ digitsBE n := by
  intro hmem
  obtain ⟨d, hd, hc⟩ := mem_digitsBE n '-' hmem
  revert hc
  revert hd
  revert d
  decide

theorem int_toString_data (m : Int) : (toString m).data =
    match m with
    | Int.ofNat a => digitsBE a
    | Int.negSucc a => '-' :: digitsBE (a + 1) := by
  rcases m with a | a
  · exact Nat_repr_data a
  · show (("-" : String) ++ Nat.repr (a + 1)).data = _
    rw [String.data_append, Nat_repr_data]
    rfl

theorem colon_not_mem_int_toString (m : Int) : ':' ∉ (toString m).data := by
  rw [int_toString_data]
  rcases m with a | a
  · exact colon_not_mem_digitsBE a
  · intro hmem
    rcases List.mem_cons.mp hmem with h | h
    · exact absurd h (by decide)
    · exact colon_not_mem_digitsBE (a + 1) h

theorem int_toString_inj (m1 m2 : Int) (h : toString m1 = toString m2) :
    m1 = m2 := by
  have hd := congrArg String.data h
  rw [int_toString_data, int_toString_data] at hd
  rcases m1 with a | a <;> rcases m2 with b | b
  · simp only at hd
    exact congrArg Int.ofNat (digitsBE_inj a b hd)
  · simp only at hd
    exact absurd (hd ▸ List.mem_cons_self '-' (digitsBE (b + 1)))
      (dash_not_mem_digitsBE a)
  · simp only at hd
    exact absurd (hd ▸ List.mem_cons_self '-' (digitsBE (a + 1)))
      (dash_not_mem_digitsBE b)
  · simp only [List.cons.injEq] at hd
    have hab := digitsBE_inj (a + 1) (b + 1) hd.2
    exact congrArg Int.negSucc (by omega)

theorem split_first_colon :
    ∀ (xs ys us vs : List Char), ':' ∉ xs → ':' ∉ ys →
      xs ++ ':' :: us = ys ++ ':' :: vs → xs = ys ∧ us = vs := by
  intro xs
  induction xs with
  | nil =>
      intro ys us vs _ hys h
      rcases ys with _ | ⟨y, ys'⟩
      · simp only [List.nil_append, List.cons.injEq] at h
        exact ⟨rfl, h.2⟩
      · simp only [List.nil_append, List.cons_append, List.cons.injEq] at h
        exact absurd (h.1 ▸ List.mem_cons_self y ys') hys
  | cons x xs' ih =>
      intro ys us vs hxs hys h
      rcases ys with _ | ⟨y, ys'⟩
      · simp only [List.cons_append, List.nil_append, List.cons.injEq] at h
        exact absurd (h.1 ▸ List.mem_cons_self x xs') hxs
      · simp only [List.cons_append, List.cons.injEq] at h
        have hxs' : ':' ∉ xs' := fun hm => hxs (List.mem_cons_of_mem x hm)
        have hys' : ':' ∉ ys' := fun hm => hys (List.mem_cons_of_mem y hm)
        obtain ⟨h1, h2⟩ := ih ys' us vs hxs' hys' h.2
        exact ⟨by rw [h.1, h1], h2⟩

theorem split_last_colon (as bs cs ds : List Char)
    (hcs : ':' ∉ cs) (hds : ':' ∉ ds)
    (h : as ++ ':' :: cs = bs ++ ':' :: ds) : as = bs ∧ cs = ds := by
  have hrev := congrArg List.reverse h
  simp only [List.reverse_append, List.reverse_cons] at hrev
  have hrev' : cs.reverse ++ ':' :: as.reverse = ds.reverse ++ ':' :: bs.reverse := by
    simpa [List.append_assoc] using hrev
  have hcs' : ':' ∉ cs.reverse := by simpa using hcs
  have hds' : ':' ∉ ds.reverse := by simpa using hds
  obtain ⟨h1, h2⟩ := split_first_colon cs.reverse ds.reverse as.reverse bs.reverse
    hcs' hds' hrev'
  constructor
  · have := congrArg List.reverse h2
    simpa using this
  · have := congrArg List.reverse h1
    simpa using this

theorem keyString_inj (c1 c2 : String) (m1 m2 : Int)
    (h : keyString c1 m1 = keyString c2 m2) : c1 = c2 ∧ m1 = m2 := by
  have hd := congrArg String.data h
  simp only [keyString, String.data_append] at hd
  have hd' : c1.data ++ ':' :: (toString m1).data =
      c2.data ++ ':' :: (toString m2).data := by
    simpa [List.append_assoc] using hd
  obtain ⟨h1, h2⟩ := split_last_colon c1.data c2.data (toString m1).data
    (toString m2).data (colon_not_mem_int_toString m1)
    (colon_not_mem_int_toString m2) hd'
  exact ⟨String.ext h1, int_toString_inj m1 m2 (String.ext h2)⟩


theorem get_ttl (ctx : Ctx) (c : OptimizedCache) (now : Int) (content : String)
    (max_tokens : Int) :
    ((OptimizedCache.get ctx c now content max_tokens).2).ttl = c.ttl := by
  rw [OptimizedCache.get]
  rcases h : dictGet c.cache (OptimizedCache.getHash ctx content max_tokens) with _ | e
  · rfl
  · dsimp only
    split
    · rfl
    · rfl

theorem afterCache_calls_pos (ctx : Ctx) (provider : Nat → Option String)
    (cache : OptimizedCache) (now : Int) (content : String) (max_tokens : Int)
    (use_cache : Bool) (hover : max_tokens < (ctx.count content : Int)) :
    1 ≤ (optimizeAfterCacheCheck ctx provider true cache now content max_tokens
      use_cache).2.2.providerCalls := by
  rw [optimizeAfterCacheCheck, if_neg (not_le.mpr hover),
    if_neg (fun h => Bool.noConfusion h : ¬ (true = false))]
  rcases hl : optimizeAttemptLoop ctx provider now content max_tokens use_cache
      (ctx.count content) 3 0 cache { providerCalls := 0, sleeps := [] }
    with ⟨r, c2, tr⟩
  have hp := loop_calls_pos ctx provider now content max_tokens use_cache
    (ctx.count content) 2 0 cache { providerCalls := 0, sleeps := [] }
  have hp3 : ({ providerCalls := 0, sleeps := [] } : Trace).providerCalls + 1 ≤
      (optimizeAttemptLoop ctx provider now content max_tokens use_cache
        (ctx.count content) 3 0 cache
        { providerCalls := 0, sleeps := [] }).2.2.providerCalls := hp
  rw [hl] at hp3
  rcases r with _ | ⟨t, md⟩
  · simpa using hp3
  · simpa using hp3

theorem get_memory_none (store : List Memory) (memory_id : String)
    (h : store.find? (fun m => pyLower m.id == pyLower memory_id) = none) :
    get_memory store memory_id =
      { success := false, memory := none,
        error := some ("Memory \x27" ++ memory_id ++ "\x27 not found"),
        available_ids := (store.take 5).map Memory.id } := by
  rw [get_memory, h]

theorem get_memory_found (store : List Memory) (memory_id : String) (mem : Memory)
    (h : store.find? (fun m => pyLower m.id == pyLower memory_id) = some mem) :
    get_memory store memory_id =
      { success := true, memory := some mem, error := none, available_ids := [] } := by
  rw [get_memory, h]


/-- Claim C1 (evaluation at the failing input): with a content whose token
count is 0 (the empty string) and max_tokens = -1, a first call reaches the
provider, whose successful response is cached before the in-try metadata
construction raises and is swallowed, so the call falls back; a second
identical call then hits the cache and the reduction computation divides by
original_tokens = 0, raising ZeroDivisionError past the boundary — the call
does not return a (text, metadata) pair. -/
theorem C1_zero_division_escapes :
    (optimize_memory_item wCtx (fun _ => some "x") true emptyCache 0 "" (-1)
      true).1 =
      Except.ok ("",
        { success := false, original_tokens := 0, optimized_tokens := 0,
          cached := false, reduction := none, message := none,
          error := some "Optimization failed after 3 attempts",
          fallback := some true, attempts := none }) ∧
    (optimize_memory_item wCtx (fun _ => some "x") true
      (optimize_memory_item wCtx (fun _ => some "x") true emptyCache 0 "" (-1)
        true).2.1
      0 "" (-1) true).1 = Except.error PyErr.zeroDivisionError := by
  exact ⟨rfl, rfl⟩

/-- Claim C2 counterexample: in the all-attempts-fail scenario (3 provider
calls, fallback), the error string the code stores is capitalized
"Optimization failed after 3 attempts", not the claimed lowercase
"optimization failed after 3 attempts". -/
theorem C2_error_string_cex :
    (resultMeta (optimize_memory_item wCtx (fun _ => none) true emptyCache 0
      "aa" 1 true).1).map OptMeta.error =
      some (some "Optimization failed after 3 attempts") ∧
    (optimize_memory_item wCtx (fun _ => none) true emptyCache 0 "aa" 1
      true).2.2.providerCalls = 3 ∧
    some (some "Optimization failed after 3 attempts") ≠
      (some (some "optimization failed after 3 attempts") :
        Option (Option String)) := by
  refine ⟨rfl, rfl, by decide⟩

/-- Claim C2 (amended: the error string is capitalized as in the code): if
the provider fails on every attempt and the call reaches the retry loop,
optimize_memory_item makes exactly 3 provider attempts and returns the
original content unchanged with success=false, fallback=true,
error="Optimization failed after 3 attempts", and optimized_tokens equal to
original_tokens. -/
theorem C2_all_attempts_fail (ctx : Ctx) (provider : Nat → Option String)
    (cache : OptimizedCache) (now : Int) (content : String) (max_tokens : Int)
    (use_cache : Bool)
    (hover : max_tokens < (ctx.count content : Int))
    (hall : ∀ i, provider i = none)
    (hmiss : use_cache = true →
      (OptimizedCache.get ctx cache now content max_tokens).1 = none ∨
      (OptimizedCache.get ctx cache now content max_tokens).1 = some "") :
    (optimize_memory_item ctx provider true cache now content max_tokens
      use_cache).1 =
      Except.ok (content,
        { success := false, original_tokens := ctx.count content,
          optimized_tokens := ctx.count content, cached := false,
          reduction := none, message := none,
          error := some "Optimization failed after 3 attempts",
          fallback := some true, attempts := none }) ∧
    (optimize_memory_item ctx provider true cache now content max_tokens
      use_cache).2.2.providerCalls = 3 := by
  rw [optimize_noHit ctx provider true cache now content max_tokens use_cache hmiss]
  rw [afterCache_allFail ctx provider _ now content max_tokens use_cache hover hall]
  exact ⟨rfl, rfl⟩

/-- Witness for C2_all_attempts_fail at a concrete input. -/
theorem C2_all_attempts_fail_witness :
    ((1 : Int) < (wCtx.count "aa" : Int)) ∧
    (optimize_memory_item wCtx (fun _ => none) true emptyCache 0 "aa" 1
      true).1 =
      Except.ok ("aa",
        { success := false, original_tokens := wCtx.count "aa",
          optimized_tokens := wCtx.count "aa", cached := false,
          reduction := none, message := none,
          error := some "Optimization failed after 3 attempts",
          fallback := some true, attempts := none }) ∧
    (optimize_memory_item wCtx (fun _ => none) true emptyCache 0 "aa" 1
      true).2.2.providerCalls = 3 := by
  refine ⟨by decide, ?_, ?_⟩
  · exact (C2_all_attempts_fail wCtx (fun _ => none) emptyCache 0 "aa" 1 true
      (by decide) (fun _ => rfl) (fun _ => Or.inl rfl)).1
  · exact (C2_all_attempts_fail wCtx (fun _ => none) emptyCache 0 "aa" 1 true
      (by decide) (fun _ => rfl) (fun _ => Or.inl rfl)).2

/-- Claim C3: for content already within the token budget and no fresh cache
entry, optimize_memory_item returns the content unchanged with success=true,
cached=false, reduction "0%", and never invokes the provider. -/
theorem C3_budget_short_circuit (ctx : Ctx) (provider : Nat → Option String)
    (clientReady : Bool) (cache : OptimizedCache) (now : Int) (content : String)
    (max_tokens : Int) (use_cache : Bool)
    (hbudget : (ctx.count content : Int) ≤ max_tokens)
    (hmiss : use_cache = true →
      (OptimizedCache.get ctx cache now content max_tokens).1 = none) :
    (optimize_memory_item ctx provider clientReady cache now content max_tokens
      use_cache).1 =
      Except.ok (content,
        { success := true, original_tokens := ctx.count content,
          optimized_tokens := ctx.count content, cached := false,
          reduction := some "0%",
          message := some "Content already within token budget",
          error := none, fallback := none, attempts := none }) ∧
    (optimize_memory_item ctx provider clientReady cache now content max_tokens
      use_cache).2.2.providerCalls = 0 := by
  rw [optimize_noHit ctx provider clientReady cache now content max_tokens
    use_cache (fun h => Or.inl (hmiss h))]
  rw [afterCache_budget ctx provider clientReady _ now content max_tokens
    use_cache hbudget]
  exact ⟨rfl, rfl⟩

/-- Witness for C3_budget_short_circuit at a concrete input. -/
theorem C3_budget_short_circuit_witness :
    ((wCtx.count "a" : Int) ≤ 1500) ∧
    (optimize_memory_item wCtx (fun _ => none) true emptyCache 0 "a" 1500
      true).1 =
      Except.ok ("a",
        { success := true, original_tokens := wCtx.count "a",
          optimized_tokens := wCtx.count "a", cached := false,
          reduction := some "0%",
          message := some "Content already within token budget",
          error := none, fallback := none, attempts := none }) ∧
    (optimize_memory_item wCtx (fun _ => none) true emptyCache 0 "a" 1500
      true).2.2.providerCalls = 0 := by
  refine ⟨by decide, ?_, ?_⟩
  · exact (C3_budget_short_circuit wCtx (fun _ => none) true emptyCache 0 "a"
      1500 true (by decide) (fun _ => rfl)).1
  · exact (C3_budget_short_circuit wCtx (fun _ => none) true emptyCache 0 "a"
      1500 true (by decide) (fun _ => rfl)).2


/-- Claim C4 counterexample: for within-budget content the second identical
call returns byte-identical text but with cached=false (nothing was ever
cached), refuting the claimed cached=true on the second call for every
(content, max_tokens). -/
theorem C4_second_call_not_cached_cex :
    resultText (optimize_memory_item wCtx (fun _ => none) true emptyCache 0 "a"
      1500 true).1 = some "a" ∧
    resultText (optimize_memory_item wCtx (fun _ => none) true
      (optimize_memory_item wCtx (fun _ => none) true emptyCache 0 "a" 1500
        true).2.1 0 "a" 1500 true).1 = some "a" ∧
    (resultMeta (optimize_memory_item wCtx (fun _ => none) true
      (optimize_memory_item wCtx (fun _ => none) true emptyCache 0 "a" 1500
        true).2.1 0 "a" 1500 true).1).map OptMeta.cached = some false := by
  exact ⟨rfl, rfl, rfl⟩

/-- Claim C4 (amended: restricted to first calls that perform and cache a
successful provider optimization with a non-empty stripped text — content
over budget with a nonzero token count, configured client, no truthy cache
hit at the first call (no fresh entry, or a fresh entry storing the empty
string), and some attempt k of the at most 3 succeeding after the earlier
ones fail): the first call returns the freshly optimized text with
cached=false and attempts=k+1, and a second call with use_cache=true and no
TTL expiry between the calls returns byte-identical text with cached=true
and success=true, its optimized_tokens recomputed from the cached text
rather than read from storage, and makes no provider call. -/
theorem C4_idempotent_after_cached_optimization (ctx : Ctx)
    (provider provider2 : Nat → Option String) (cache : OptimizedCache)
    (now1 now2 : Int) (content : String) (max_tokens : Int) (k : Nat)
    (s : String)
    (hover : max_tokens < (ctx.count content : Int))
    (hot : ctx.count content ≠ 0)
    (hmiss : (OptimizedCache.get ctx cache now1 content max_tokens).1 = none ∨
      (OptimizedCache.get ctx cache now1 content max_tokens).1 = some "")
    (hk : k ≤ 2)
    (hfail : ∀ i < k, provider i = none)
    (hs : provider k = some s)
    (hne : pyStrip s ≠ "")
    (httl : now2 - now1 ≤ cache.ttl) :
    (optimize_memory_item ctx provider true cache now1 content max_tokens
      true).1 =
      Except.ok (pyStrip s,
        { success := true, original_tokens := ctx.count content,
          optimized_tokens := ctx.count (pyStrip s), cached := false,
          reduction := some (ctx.fmtReduction (ctx.count content)
            (ctx.count (pyStrip s))),
          message := none, error := none, fallback := none,
          attempts := some (k + 1) }) ∧
    (optimize_memory_item ctx provider2 true
      (optimize_memory_item ctx provider true cache now1 content max_tokens
        true).2.1 now2 content max_tokens true).1 =
      Except.ok (pyStrip s,
        { success := true, original_tokens := ctx.count content,
          optimized_tokens := ctx.count (pyStrip s), cached := true,
          reduction := some (ctx.fmtReduction (ctx.count content)
            (ctx.count (pyStrip s))),
          message := none, error := none, fallback := none,
          attempts := none }) ∧
    (optimize_memory_item ctx provider2 true
      (optimize_memory_item ctx provider true cache now1 content max_tokens
        true).2.1 now2 content max_tokens true).2.2.providerCalls = 0 := by
  have hnh : optimize_memory_item ctx provider true cache now1 content
      max_tokens true =
      optimizeAfterCacheCheck ctx provider true
        (OptimizedCache.get ctx cache now1 content max_tokens).2 now1 content
        max_tokens true :=
    optimize_noHit ctx provider true cache now1 content max_tokens true
      (fun _ => hmiss)
  have hac := afterCache_successAt ctx provider
    (OptimizedCache.get ctx cache now1 content max_tokens).2 now1 content
    max_tokens k s hover hk hfail hs hot
  have hcache1 : (optimize_memory_item ctx provider true cache now1 content
      max_tokens true).2.1 =
      OptimizedCache.set ctx
        (OptimizedCache.get ctx cache now1 content max_tokens).2 now1 content
        max_tokens (pyStrip s) (ctx.count content) (ctx.count (pyStrip s)) := by
    rw [hnh]
    exact hac.2
  have httl2 : now2 -
      (⟨pyStrip s, now1, ctx.count content, ctx.count (pyStrip s)⟩ :
        OptimizedCacheEntry).timestamp ≤
      (OptimizedCache.set ctx
        (OptimizedCache.get ctx cache now1 content max_tokens).2 now1 content
        max_tokens (pyStrip s) (ctx.count content)
        (ctx.count (pyStrip s))).ttl := by
    show now2 - now1 ≤
      ((OptimizedCache.get ctx cache now1 content max_tokens).2).ttl
    rw [get_ttl ctx cache now1 content max_tokens]
    exact httl
  have hget2 := OptimizedCache.get_of_fresh ctx
    (OptimizedCache.set ctx
      (OptimizedCache.get ctx cache now1 content max_tokens).2 now1 content
      max_tokens (pyStrip s) (ctx.count content) (ctx.count (pyStrip s)))
    now2 content max_tokens
    ⟨pyStrip s, now1, ctx.count content, ctx.count (pyStrip s)⟩
    (dictGet_dictSet_self _ _ _) httl2
  have hsecond := optimize_hit ctx provider2 true
    (OptimizedCache.set ctx
      (OptimizedCache.get ctx cache now1 content max_tokens).2 now1 content
      max_tokens (pyStrip s) (ctx.count content) (ctx.count (pyStrip s)))
    now2 content max_tokens (pyStrip s) (by rw [hget2]) hne hot
  refine ⟨?_, ?_, ?_⟩
  · rw [hnh]
    exact hac.1
  · rw [hcache1, hsecond]
  · rw [hcache1, hsecond]

/-- Witness for C4_idempotent_after_cached_optimization at a concrete input:
a negative budget, a first attempt that fails and a second attempt that
succeeds (k = 1). -/
theorem C4_idempotent_witness :
    ((-1 : Int) < (wCtx.count "abc" : Int) ∧ wCtx.count "abc" ≠ 0 ∧
      (OptimizedCache.get wCtx emptyCache 0 "abc" (-1)).1 = none ∧
      (1 : Nat) ≤ 2 ∧
      (∀ i < 1, (fun i => if i = 0 then none else some "xy") i =
        (none : Option String)) ∧
      (fun i => if i = 0 then none else some "xy") 1 = some "xy" ∧
      pyStrip "xy" ≠ "" ∧ (10 : Int) - 0 ≤ emptyCache.ttl) ∧
    (optimize_memory_item wCtx (fun i => if i = 0 then none else some "xy")
      true emptyCache 0 "abc" (-1) true).1 =
      Except.ok (pyStrip "xy",
        { success := true, original_tokens := wCtx.count "abc",
          optimized_tokens := wCtx.count (pyStrip "xy"), cached := false,
          reduction := some (wCtx.fmtReduction (wCtx.count "abc")
            (wCtx.count (pyStrip "xy"))),
          message := none, error := none, fallback := none,
          attempts := some (1 + 1) }) ∧
    (optimize_memory_item wCtx (fun _ => none) true
      (optimize_memory_item wCtx (fun i => if i = 0 then none else some "xy")
        true emptyCache 0 "abc" (-1) true).2.1 10 "abc" (-1) true).1 =
      Except.ok (pyStrip "xy",
        { success := true, original_tokens := wCtx.count "abc",
          optimized_tokens := wCtx.count (pyStrip "xy"), cached := true,
          reduction := some (wCtx.fmtReduction (wCtx.count "abc")
            (wCtx.count (pyStrip "xy"))),
          message := none, error := none, fallback := none,
          attempts := none }) ∧
    (optimize_memory_item wCtx (fun _ => none) true
      (optimize_memory_item wCtx (fun i => if i = 0 then none else some "xy")
        true emptyCache 0 "abc" (-1) true).2.1 10 "abc" (-1)
      true).2.2.providerCalls = 0 := by
  refine ⟨⟨by decide, by decide, rfl, by decide, by decide, rfl, by decide,
    by decide⟩, ?_⟩
  exact C4_idempotent_after_cached_optimization wCtx
    (fun i => if i = 0 then none else some "xy") (fun _ => none) emptyCache 0
    10 "abc" (-1) 1 "xy" (by decide) (by decide) (Or.inl rfl) (by decide)
    (by decide) rfl (by decide) (by decide)

/-- Claim C5: OptimizedCache.get returns the stored optimized_text iff an
entry for the fingerprint exists whose age now - timestamp does not exceed
the TTL; an existing entry strictly older than the TTL is deleted by the
lookup and no value is returned (lazy expiry), so an entry created at T is
retrievable while now - T ≤ ttl and gone once ttl < now - T. -/
theorem C5_get_ttl_spec (ctx : Ctx) (c : OptimizedCache) (now : Int)
    (content : String) (max_tokens : Int) :
    (∀ t, (OptimizedCache.get ctx c now content max_tokens).1 = some t ↔
      ∃ e, dictGet c.cache (OptimizedCache.getHash ctx content max_tokens) =
          some e ∧ e.optimized_text = t ∧ now - e.timestamp ≤ c.ttl) ∧
    (∀ e, dictGet c.cache (OptimizedCache.getHash ctx content max_tokens) =
        some e → c.ttl < now - e.timestamp →
      (OptimizedCache.get ctx c now content max_tokens).1 = none ∧
      dictGet ((OptimizedCache.get ctx c now content max_tokens).2).cache
        (OptimizedCache.getHash ctx content max_tokens) = none) := by
  constructor
  · intro t
    constructor
    · intro h
      rcases hl : dictGet c.cache (OptimizedCache.getHash ctx content
          max_tokens) with _ | e
      · rw [OptimizedCache.get_of_absent ctx c now content max_tokens hl] at h
        exact absurd h (by simp)
      · by_cases hexp : c.ttl < now - e.timestamp
        · rw [OptimizedCache.get_of_expired ctx c now content max_tokens e hl
            hexp] at h
          exact absurd h (by simp)
        · push_neg at hexp
          rw [OptimizedCache.get_of_fresh ctx c now content max_tokens e hl
            hexp] at h
          simp only [Option.some.injEq] at h
          exact ⟨e, rfl, h, hexp⟩
    · rintro ⟨e, hl, het, hfr⟩
      rw [OptimizedCache.get_of_fresh ctx c now content max_tokens e hl hfr]
      simp [het]
  · intro e hl hexp
    rw [OptimizedCache.get_of_expired ctx c now content max_tokens e hl hexp]
    exact ⟨rfl, dictGet_dictDel_self c.cache _⟩

/-- Witness for C5_get_ttl_spec: the c5Cache entry created at time 0 with
ttl 3600 is returned at now = 3600 and is deleted (and not returned) at
now = 3601. -/
theorem C5_get_ttl_spec_witness :
    (OptimizedCache.get wCtx c5Cache 3600 "c" 5).1 = some "t" ∧
    (OptimizedCache.get wCtx c5Cache 3601 "c" 5).1 = none ∧
    dictGet ((OptimizedCache.get wCtx c5Cache 3601 "c" 5).2).cache
      (OptimizedCache.getHash wCtx "c" 5) = none := by
  refine ⟨?_, ?_, ?_⟩
  · exact ((C5_get_ttl_spec wCtx c5Cache 3600 "c" 5).1 "t").mpr
      ⟨⟨"t", 0, 9, 1⟩, rfl, rfl, by decide⟩
  · exact ((C5_get_ttl_spec wCtx c5Cache 3601 "c" 5).2 ⟨"t", 0, 9, 1⟩ rfl
      (by decide)).1
  · exact ((C5_get_ttl_spec wCtx c5Cache 3601 "c" 5).2 ⟨"t", 0, 9, 1⟩ rfl
      (by decide)).2

/-- Claim C6 counterexample: on the unconfigured-client path the error
string the code stores is "DeepSeek client not initialized", not the claimed
"client not initialized". -/
theorem C6_error_string_cex :
    (resultMeta (optimize_memory_item wCtx (fun _ => none) false emptyCache 0
      "aa" 1 true).1).map OptMeta.error =
      some (some "DeepSeek client not initialized") ∧
    (optimize_memory_item wCtx (fun _ => none) false emptyCache 0 "aa" 1
      true).2.2.providerCalls = 0 ∧
    some (some "DeepSeek client not initialized") ≠
      (some (some "client not initialized") : Option (Option String)) := by
  refine ⟨rfl, rfl, by decide⟩

/-- Claim C6 (amended: the error string is "DeepSeek client not initialized"
as in the code): when the client is not configured, over-budget content with
no usable cache hit is returned unchanged with success=false, fallback=true,
error="DeepSeek client not initialized", and the provider is never attempted
and nothing is retried or slept. -/
theorem C6_client_not_ready (ctx : Ctx) (provider : Nat → Option String)
    (cache : OptimizedCache) (now : Int) (content : String) (max_tokens : Int)
    (use_cache : Bool)
    (hover : max_tokens < (ctx.count content : Int))
    (hmiss : use_cache = true →
      (OptimizedCache.get ctx cache now content max_tokens).1 = none ∨
      (OptimizedCache.get ctx cache now content max_tokens).1 = some "") :
    (optimize_memory_item ctx provider false cache now content max_tokens
      use_cache).1 =
      Except.ok (content,
        { success := false, original_tokens := ctx.count content,
          optimized_tokens := ctx.count content, cached := false,
          reduction := none, message := none,
          error := some "DeepSeek client not initialized",
          fallback := some true, attempts := none }) ∧
    (optimize_memory_item ctx provider false cache now content max_tokens
      use_cache).2.2 = { providerCalls := 0, sleeps := [] } := by
  rw [optimize_noHit ctx provider false cache now content max_tokens use_cache
    hmiss]
  rw [afterCache_noClient ctx provider _ now content max_tokens use_cache hover]
  exact ⟨rfl, rfl⟩

/-- Witness for C6_client_not_ready at a concrete input. -/
theorem C6_client_not_ready_witness :
    ((1 : Int) < (wCtx.count "aa" : Int)) ∧
    (optimize_memory_item wCtx (fun _ => none) false emptyCache 0 "aa" 1
      true).1 =
      Except.ok ("aa",
        { success := false, original_tokens := wCtx.count "aa",
          optimized_tokens := wCtx.count "aa", cached := false,
          reduction := none, message := none,
          error := some "DeepSeek client not initialized",
          fallback := some true, attempts := none }) ∧
    (optimize_memory_item wCtx (fun _ => none) false emptyCache 0 "aa" 1
      true).2.2 = { providerCalls := 0, sleeps := [] } := by
  refine ⟨by decide, ?_, ?_⟩
  · exact (C6_client_not_ready wCtx (fun _ => none) emptyCache 0 "aa" 1 true
      (by decide) (fun _ => Or.inl rfl)).1
  · exact (C6_client_not_ready wCtx (fun _ => none) emptyCache 0 "aa" 1 true
      (by decide) (fun _ => Or.inl rfl)).2

/-- Claim C7: across 3 failing provider attempts the client sleeps
2^0 = 1 second after the first failure and 2^1 = 2 seconds after the second
(3 seconds in total before the 3rd attempt), and does not sleep after the
final attempt — the recorded sleep list is exactly [1, 2]. -/
theorem C7_backoff_sleeps (ctx : Ctx) (provider : Nat → Option String)
    (cache : OptimizedCache) (now : Int) (content : String) (max_tokens : Int)
    (use_cache : Bool)
    (hover : max_tokens < (ctx.count content : Int))
    (hall : ∀ i, provider i = none)
    (hmiss : use_cache = true →
      (OptimizedCache.get ctx cache now content max_tokens).1 = none ∨
      (OptimizedCache.get ctx cache now content max_tokens).1 = some "") :
    (optimize_memory_item ctx provider true cache now content max_tokens
      use_cache).2.2.sleeps = [1, 2] ∧
    (optimize_memory_item ctx provider true cache now content max_tokens
      use_cache).2.2.sleeps.sum = 3 := by
  rw [optimize_noHit ctx provider true cache now content max_tokens use_cache
    hmiss]
  rw [afterCache_allFail ctx provider _ now content max_tokens use_cache hover
    hall]
  exact ⟨rfl, rfl⟩

/-- Witness for C7_backoff_sleeps at a concrete input. -/
theorem C7_backoff_sleeps_witness :
    ((1 : Int) < (wCtx.count "aa" : Int)) ∧
    (optimize_memory_item wCtx (fun _ => none) true emptyCache 0 "aa" 1
      true).2.2.sleeps = [1, 2] ∧
    (optimize_memory_item wCtx (fun _ => none) true emptyCache 0 "aa" 1
      true).2.2.sleeps.sum = 3 := by
  refine ⟨by decide, ?_, ?_⟩
  · exact (C7_backoff_sleeps wCtx (fun _ => none) emptyCache 0 "aa" 1 true
      (by decide) (fun _ => rfl) (fun _ => Or.inl rfl)).1
  · exact (C7_backoff_sleeps wCtx (fun _ => none) emptyCache 0 "aa" 1 true
      (by decide) (fun _ => rfl) (fun _ => Or.inl rfl)).2


/-- Claim C8 counterexample: a present memory_id does not always yield
success=true at this layer — with a stored memory whose content counts 0
tokens and max_tokens = -1, a first call poisons the optimizer cache and a
second identical call propagates the optimizer ZeroDivisionError, returning
no result at all. -/
theorem C8_present_id_raises_cex :
    (get_optimized_memory wCtx (fun _ => some "x") true
      (get_optimized_memory wCtx (fun _ => some "x") true emptyCache 0
        [{ id := "m1", title := "T", content := "" }] "m1" (-1) true).2.1
      0 [{ id := "m1", title := "T", content := "" }] "m1" (-1) true).1 =
      Except.error PyErr.zeroDivisionError := by
  rfl

/-- Claim C8 (amended: the present-id half is stated for memories whose
content has a nonzero token count, which excludes the ZeroDivisionError
corner exhibited by the counterexample): for a memory_id absent from the
store, get_optimized_memory returns success=false with an error message and
never calls the optimizer; for a present memory_id it returns success=true
at this layer, the nested optimization metadata carrying the inner
outcome. -/
theorem C8_lookup_layer (ctx : Ctx) (provider : Nat → Option String)
    (clientReady : Bool) (cache : OptimizedCache) (now : Int)
    (store : List Memory) (memory_id : String) (max_tokens : Int)
    (use_cache : Bool) :
    ((∀ m ∈ store, pyLower m.id ≠ pyLower memory_id) →
      (get_optimized_memory ctx provider clientReady cache now store memory_id
        max_tokens use_cache).1 =
        Except.ok
          { success := false,
            error := some ("Memory \x27" ++ memory_id ++ "\x27 not found"),
            available_ids := (store.take 5).map Memory.id, memory := none,
            optimization := none } ∧
      (get_optimized_memory ctx provider clientReady cache now store memory_id
        max_tokens use_cache).2.2 =
        { optimizeCalls := 0, inner := { providerCalls := 0, sleeps := [] } }) ∧
    (∀ mem, store.find? (fun m => pyLower m.id == pyLower memory_id) =
        some mem →
      ctx.count mem.content ≠ 0 →
      (get_optimized_memory ctx provider clientReady cache now store memory_id
        max_tokens use_cache).1 =
        Except.ok
          { success := true, error := none, available_ids := [],
            memory := some
              { id := mem.id, title := mem.title,
                content := (resultText (optimize_memory_item ctx provider
                  clientReady cache now mem.content max_tokens
                  use_cache).1).getD "" },
            optimization := resultMeta (optimize_memory_item ctx provider
              clientReady cache now mem.content max_tokens use_cache).1 } ∧
      (get_optimized_memory ctx provider clientReady cache now store memory_id
        max_tokens use_cache).2.2.optimizeCalls = 1) := by
  constructor
  · intro h
    have hfind : store.find? (fun m => pyLower m.id == pyLower memory_id) =
        none := by
      rw [List.find?_eq_none]
      intro m hm
      simpa using h m hm
    have hgm := get_memory_none store memory_id hfind
    constructor
    · simp only [get_optimized_memory, hgm]
      rfl
    · simp only [get_optimized_memory, hgm]
      rfl
  · intro mem hfind hot
    have hgm := get_memory_found store memory_id mem hfind
    obtain ⟨t, md, hok⟩ := optimize_isOk ctx provider clientReady cache now
      mem.content max_tokens use_cache hot
    constructor
    · simp only [get_optimized_memory, hgm]
      rw [hok]
      simp [resultText, resultMeta, hok]
    · simp only [get_optimized_memory, hgm]
      rw [hok]
      rfl

/-- Witness for C8_lookup_layer: a one-record store queried with an absent
id and with a present id under a different letter case. -/
theorem C8_lookup_layer_witness :
    (∀ m ∈ wStore, pyLower m.id ≠ pyLower "zzz") ∧
    (get_optimized_memory wCtx (fun _ => none) true emptyCache 0 wStore "zzz"
      1500 true).1 =
      Except.ok
        { success := false,
          error := some ("Memory \x27" ++ "zzz" ++ "\x27 not found"),
          available_ids := (wStore.take 5).map Memory.id, memory := none,
          optimization := none } ∧
    (get_optimized_memory wCtx (fun _ => none) true emptyCache 0 wStore "zzz"
      1500 true).2.2 =
      { optimizeCalls := 0, inner := { providerCalls := 0, sleeps := [] } } ∧
    wStore.find? (fun m => pyLower m.id == pyLower "MEM-001") =
      some { id := "mem-001", title := "T", content := "hello" } ∧
    (get_optimized_memory wCtx (fun _ => none) true emptyCache 0 wStore
      "MEM-001" 1500 true).1 =
      Except.ok
        { success := true, error := none, available_ids := [],
          memory := some
            { id := "mem-001", title := "T",
              content := (resultText (optimize_memory_item wCtx (fun _ => none)
                true emptyCache 0 "hello" 1500 true).1).getD "" },
          optimization := resultMeta (optimize_memory_item wCtx (fun _ => none)
            true emptyCache 0 "hello" 1500 true).1 } ∧
    (get_optimized_memory wCtx (fun _ => none) true emptyCache 0 wStore
      "MEM-001" 1500 true).2.2.optimizeCalls = 1 := by
  have habs := (C8_lookup_layer wCtx (fun _ => none) true emptyCache 0 wStore
    "zzz" 1500 true).1 (by decide)
  have hpres := (C8_lookup_layer wCtx (fun _ => none) true emptyCache 0 wStore
    "MEM-001" 1500 true).2 { id := "mem-001", title := "T", content := "hello" }
    (by decide) (by decide)
  exact ⟨by decide, habs.1, habs.2, by decide, hpres.1, hpres.2⟩

/-- Claim C9: two distinct (content, max_tokens) pairs always produce two
distinct key strings f"{content}:{max_tokens}", hence distinct cache
fingerprints whenever SHA-256 does not collide on those two keys; in
particular the entries for budgets 1000 and 2000, or for old and new
content, are independent. -/
theorem C9_fingerprint_injective (ctx : Ctx) (c1 c2 : String) (m1 m2 : Int)
    (hne : (c1, m1) ≠ (c2, m2))
    (hnocoll : ctx.sha256hex (keyString c1 m1) =
      ctx.sha256hex (keyString c2 m2) → keyString c1 m1 = keyString c2 m2) :
    OptimizedCache.getHash ctx c1 m1 ≠ OptimizedCache.getHash ctx c2 m2 := by
  intro h
  obtain ⟨hc, hm⟩ := keyString_inj c1 c2 m1 m2 (hnocoll h)
  exact hne (by rw [hc, hm])

/-- Witness for C9_fingerprint_injective: same content, budgets 1000 and
2000, identity digest. -/
theorem C9_fingerprint_injective_witness :
    (("a", (1000 : Int)) ≠ ("a", (2000 : Int))) ∧
    OptimizedCache.getHash wCtx "a" 1000 ≠ OptimizedCache.getHash wCtx "a"
      2000 :=
  ⟨by decide, C9_fingerprint_injective wCtx "a" "a" 1000 2000 (by decide)
    (fun h => h)⟩

/-- Claim C10: a fresh cache entry whose stored optimized_text is the empty
string is returned by OptimizedCache.get, but the caller treats the empty
string as falsy: the call proceeds exactly as on a cache miss — through the
budget check, and, when over budget with a configured client, to at least
one fresh provider attempt — and never reports cached=true. -/
theorem C10_empty_cached_text_is_miss (ctx : Ctx)
    (provider : Nat → Option String) (clientReady : Bool)
    (cache : OptimizedCache) (now : Int) (content : String) (max_tokens : Int)
    (e : OptimizedCacheEntry)
    (hl : dictGet cache.cache (OptimizedCache.getHash ctx content max_tokens) =
      some e)
    (he : e.optimized_text = "")
    (hf : now - e.timestamp ≤ cache.ttl) :
    (OptimizedCache.get ctx cache now content max_tokens).1 = some "" ∧
    optimize_memory_item ctx provider clientReady cache now content max_tokens
      true =
      optimizeAfterCacheCheck ctx provider clientReady cache now content
        max_tokens true ∧
    (clientReady = true → max_tokens < (ctx.count content : Int) →
      1 ≤ (optimize_memory_item ctx provider clientReady cache now content
        max_tokens true).2.2.providerCalls) ∧
    (∀ t md, (optimize_memory_item ctx provider clientReady cache now content
        max_tokens true).1 = Except.ok (t, md) → md.cached = false) := by
  have hget : OptimizedCache.get ctx cache now content max_tokens =
      (some "", cache) := by
    have h := OptimizedCache.get_of_fresh ctx cache now content max_tokens e
      hl hf
    rw [he] at h
    exact h
  have hdisp : optimize_memory_item ctx provider clientReady cache now content
      max_tokens true =
      optimizeAfterCacheCheck ctx provider clientReady cache now content
        max_tokens true := by
    rw [optimize_noHit ctx provider clientReady cache now content max_tokens
      true (fun _ => Or.inr (by rw [hget]))]
    rw [hget]
    rfl
  refine ⟨by rw [hget], hdisp, ?_, ?_⟩
  · intro hready hover
    rw [hdisp]
    subst hready
    exact afterCache_calls_pos ctx provider cache now content max_tokens true
      hover
  · intro t md hok
    rw [hdisp] at hok
    exact afterCache_cached_false ctx provider clientReady cache now content
      max_tokens true t md hok

/-- Witness for C10_empty_cached_text_is_miss at a concrete input: a fresh
empty-text entry for over-budget content with a configured but failing
provider. -/
theorem C10_empty_cached_text_witness :
    (dictGet c10Cache.cache (OptimizedCache.getHash wCtx "ec" 1) =
      some
        { optimized_text := "", timestamp := 0, original_tokens := 9,
          optimized_tokens := 0 } ∧
      (0 : Int) - 0 ≤ c10Cache.ttl) ∧
    (OptimizedCache.get wCtx c10Cache 0 "ec" 1).1 = some "" ∧
    optimize_memory_item wCtx (fun _ => none) true c10Cache 0 "ec" 1 true =
      optimizeAfterCacheCheck wCtx (fun _ => none) true c10Cache 0 "ec" 1
        true ∧
    1 ≤ (optimize_memory_item wCtx (fun _ => none) true c10Cache 0 "ec" 1
      true).2.2.providerCalls ∧
    ({ success := false, original_tokens := 2, optimized_tokens := 2,
       cached := false, reduction := none, message := none,
       error := some "Optimization failed after 3 attempts",
       fallback := some true, attempts := none } : OptMeta).cached = false := by
  have h := C10_empty_cached_text_is_miss wCtx (fun _ => none) true c10Cache 0
    "ec" 1
    { optimized_text := "", timestamp := 0, original_tokens := 9,
      optimized_tokens := 0 } rfl rfl (by decide)
  refine ⟨⟨rfl, by decide⟩, h.1, h.2.1, h.2.2.1 rfl (by decide), ?_⟩
  exact h.2.2.2 "ec" _ rfl

end MemoryOpt
